import Mathlib

set_option maxHeartbeats 1000000

/-!
Verification development for the PymoNNto-Behaviors numerical core.

The development shallow-embeds the three engine components of the
repository over exact rational arithmetic:

* the leaky-integrate-and-fire neuron dynamics and its exponential and
  adaptive variants (`src/PymoNNtoBehaviors/neurons/LIFs.py`), together
  with the older duplicate single-file implementation
  (`src/neurons/LIF.py`);
* the spike-timing-dependent plasticity engine in dense and
  convolutional mode (`src/PymoNNtoBehaviors/learning/STDP.py` and the
  duplicate `src/learning/STDP.py`, whose dense paths are identical);
* the 2-D convolutional projection
  (`src/PymoNNtoBehaviors/connections/convolution.py`).

Populations are vectors indexed by `Fin n`; numpy boolean arrays that
take part in arithmetic are converted through `b2q`.  The host library
PymoNNto is not part of the repository; the two helpers the core uses
from it are modelled from the specification (see `getNeuronVec`).  The
numeric exponential `np.exp` is a host routine as well; the definitions
that use it are parametric in a function `ex : ℚ → ℚ` standing for it
(none of the properties proved below depend on its values).
-/

/-- Conversion applied by numpy when a boolean array participates in
arithmetic: `True ↦ 1`, `False ↦ 0`. -/
def b2q (b : Bool) : ℚ := if b then 1 else 0

/-- Embeds `np.clip x lo hi`, the clip call, which numpy computes as `min (max x lo) hi`. -/
def npClip (x lo hi : ℚ) : ℚ := min (max x lo) hi

/-- Modelled from the spec: PymoNNto's per-population helper
`get_neuron_vec` with its default mode (the host library is not part of
this repository).  Spec §6 requires the host to provide a zero-filled
vector of the population's size, and the plain call is used exactly
where the code expects zeros (spike traces, adaptation current). -/
def getNeuronVec (n : ℕ) : Fin n → ℚ := fun _ => 0

/-- Modelled from the spec: the ones-filled per-population helper of
the host, `get_neuron_vec(mode="ones()")` in the source. -/
def getNeuronVecOnes (n : ℕ) : Fin n → ℚ := fun _ => 1

/-! ## Neuron dynamics: tagged-variant implementation
(`src/PymoNNtoBehaviors/neurons/LIFs.py`) -/

/-- Scalar parameters of the base LIF behaviour (LIFs.py). -/
structure LIFParams where
  tau : ℚ
  v_rest : ℚ
  v_reset : ℚ
  threshold : ℚ
  R : ℚ

/-- Per-population state touched by the LIF behaviours: membrane
voltage `v` and the spike indicator `spikes`. -/
structure LIFState (n : ℕ) where
  v : Fin n → ℚ
  spikes : Fin n → Bool

/-- Embeds `LIF._initialize`: `v = ones * v_rest`, `spikes = zeros` (a
zero-filled float vector, i.e. everywhere falsy, embedded as `false`). -/
def LIF.initVars (p : LIFParams) (n : ℕ) : LIFState n :=
  { v := fun i => getNeuronVecOnes n i * p.v_rest
  , spikes := fun _ => false }

/-- Embeds `LIF._dv_dt`: `(v_rest - v) + R*I`, elementwise. -/
def LIF.dvdt (p : LIFParams) (Ii vi : ℚ) : ℚ :=
  (p.v_rest - vi) + p.R * Ii

/-- Embeds `LIF._fire`: `spikes = v >= threshold`, then `v[spikes] = v_reset`. -/
def LIF.fire (p : LIFParams) {n : ℕ} (s : LIFState n) : LIFState n :=
  { v := fun i => if s.v i ≥ p.threshold then p.v_reset else s.v i
  , spikes := fun i => decide (s.v i ≥ p.threshold) }

/-- Embeds `LIF.new_iteration`: `_fire` first, then `v += _dv_dt(...) / tau`.
`I` is the input-current vector, written by projections and read-only
here. -/
def LIF.newIteration (p : LIFParams) {n : ℕ} (I : Fin n → ℚ)
    (s : LIFState n) : LIFState n :=
  let s1 := LIF.fire p s
  { s1 with v := fun i => s1.v i + LIF.dvdt p (I i) (s1.v i) / p.tau }

/-- Parameters of the exponential variant (ELIF extends LIF). -/
structure ELIFParams extends LIFParams where
  sharpness : ℚ
  theta_rh : ℚ

/-- Embeds `ELIF._dv_dt`: the base term plus
`sharpness * exp((v - theta_rh)/sharpness)`; `ex` stands for the host
numeric `np.exp`. -/
def ELIF.dvdt (ex : ℚ → ℚ) (p : ELIFParams) (Ii vi : ℚ) : ℚ :=
  LIF.dvdt p.toLIFParams Ii vi
    + p.sharpness * ex ((vi - p.theta_rh) / p.sharpness)

/-- Embeds `ELIF.new_iteration`: `_fire` first, then integrate with the
exponential derivative. -/
def ELIF.newIteration (ex : ℚ → ℚ) (p : ELIFParams) {n : ℕ}
    (I : Fin n → ℚ) (s : LIFState n) : LIFState n :=
  let s1 := LIF.fire p.toLIFParams s
  { s1 with v := fun i => s1.v i + ELIF.dvdt ex p (I i) (s1.v i) / p.tau }

/-- Parameters of the adaptive exponential variant (AELIF extends ELIF). -/
structure AELIFParams extends ELIFParams where
  alpha : ℚ
  beta : ℚ
  tau_a : ℚ

/-- AELIF state: voltage, spikes, and the adaptation current `A`. -/
structure AELIFState (n : ℕ) where
  v : Fin n → ℚ
  spikes : Fin n → Bool
  A : Fin n → ℚ

/-- Embeds `AELIF.set_variables` after `_initialize`: additionally `A = zeros`. -/
def AELIF.initVars (p : AELIFParams) (n : ℕ) : AELIFState n :=
  { v := fun i => getNeuronVecOnes n i * p.v_rest
  , spikes := fun _ => false
  , A := getNeuronVec n }

/-- Embeds `AELIF._dA_dt`: `alpha*(v - v_rest) + beta*tau_a*spikes - A`. -/
def AELIF.dAdt (p : AELIFParams) (vi Ai : ℚ) (spk : Bool) : ℚ :=
  p.alpha * (vi - p.v_rest) + p.beta * p.tau_a * b2q spk - Ai

/-- Embeds `AELIF.new_iteration`: `_fire`; then
`v += (_dv_dt - R*A)/tau` (with the pre-tick `A`); then
`A = _dA_dt(...)/tau_a`, where `_dA_dt` reads the just-integrated `v`,
the spikes detected this tick, and the pre-tick `A`. -/
def AELIF.newIteration (ex : ℚ → ℚ) (p : AELIFParams) {n : ℕ}
    (I : Fin n → ℚ) (s : AELIFState n) : AELIFState n :=
  let spk : Fin n → Bool := fun i => decide (s.v i ≥ p.threshold)
  let vr : Fin n → ℚ := fun i => if spk i then p.v_reset else s.v i
  let v2 : Fin n → ℚ := fun i =>
    vr i + (ELIF.dvdt ex p.toELIFParams (I i) (vr i) - p.R * s.A i) / p.tau
  { v := v2
  , spikes := spk
  , A := fun i => AELIF.dAdt p (v2 i) (s.A i) (spk i) / p.tau_a }

/-! ## Neuron dynamics: duplicate single-file implementation
(`src/neurons/LIF.py`) -/

/-- Scalar parameters of the duplicate LIF; `set_variables` also puts
`dt = 1` on the population, kept here as a field. -/
structure OldLIFParams where
  tau : ℚ
  v_rest : ℚ
  v_reset : ℚ
  threshold : ℚ
  R : ℚ
  dt : ℚ

/-- Embeds `LIF.set_variables` of the duplicate: `v = get_neuron_vec() * v_rest`
and `spikes = get_neuron_vec() > threshold` (the plain helper call,
zero-filled per the spec's host contract). -/
def OldLIF.initVars (p : OldLIFParams) (n : ℕ) : LIFState n :=
  { v := fun i => getNeuronVec n i * p.v_rest
  , spikes := fun i => decide (getNeuronVec n i > p.threshold) }

/-- The voltage after the integration line of the duplicate
`new_iteration`: `v + (v_rest - v + R*I) * dt / tau`. -/
def OldLIF.integrate (p : OldLIFParams) {n : ℕ} (I : Fin n → ℚ)
    (s : LIFState n) : Fin n → ℚ :=
  fun i => s.v i + (p.v_rest - s.v i + p.R * I i) * p.dt / p.tau

/-- The duplicate `LIF.new_iteration`: integrate, then detect
`spikes = v >= threshold`, then reset the spiking entries. -/
def OldLIF.newIteration (p : OldLIFParams) {n : ℕ} (I : Fin n → ℚ)
    (s : LIFState n) : LIFState n :=
  let v1 := OldLIF.integrate p I s
  { v := fun i => if v1 i ≥ p.threshold then p.v_reset else v1 i
  , spikes := fun i => decide (v1 i ≥ p.threshold) }

/-! ## Plasticity engine: STDP, dense mode
(`src/PymoNNtoBehaviors/learning/STDP.py`; the dense path of the
duplicate `src/learning/STDP.py` is line-for-line the same) -/

/-- Scalar parameters of the STDP behaviour; `dt`, `w_min`, `w_max`
live on the synapse object. -/
structure STDPParams where
  tau_plus : ℚ
  tau_minus : ℚ
  a_plus : ℚ
  a_minus : ℚ
  dt : ℚ
  w_min : ℚ
  w_max : ℚ

/-- State of a dense plastic projection.  The dense multiplication
lines `dst.trace * src.spikes` and `src.trace * dst.spikes` are
elementwise products of one-dimensional arrays, so they only execute
when the two populations have the same size `n`; the embedding is
typed for that working case. -/
structure DenseState (n : ℕ) where
  srcTrace : Fin n → ℚ
  dstTrace : Fin n → ℚ
  srcSpikes : Fin n → Bool
  dstSpikes : Fin n → Bool
  W : Fin n → Fin n → ℚ

/-- Embeds `STDP.set_variables`: both trace vectors come fresh from the plain
host helper, i.e. zero-filled. -/
def STDP.initTrace (n : ℕ) : Fin n → ℚ := getNeuronVec n

/-- The updated source trace, first two lines of `STDP.new_iteration`:
`trace += (-trace/tau_plus + spikes) * dt`. -/
def STDP.srcTraceNext (p : STDPParams) {n : ℕ} (s : DenseState n) :
    Fin n → ℚ :=
  fun j => s.srcTrace j
    + (-(s.srcTrace j) / p.tau_plus + b2q (s.srcSpikes j)) * p.dt

/-- The updated destination trace:
`trace += (-trace/tau_minus + spikes) * dt`. -/
def STDP.dstTraceNext (p : STDPParams) {n : ℕ} (s : DenseState n) :
    Fin n → ℚ :=
  fun j => s.dstTrace j
    + (-(s.dstTrace j) / p.tau_minus + b2q (s.dstSpikes j)) * p.dt

/-- The final lines of `STDP.new_iteration`, shared by the dense and
the convolutional branch:
`W = np.clip(W + (dw_plus + dw_minus) * dt, w_min, w_max)`,
elementwise over whatever index set the produced `dw` arrays have. -/
def STDP.applyW (p : STDPParams) {idx : Type} (W dwPlus dwMinus : idx → ℚ) :
    idx → ℚ :=
  fun k => npClip (W k + (dwPlus k + dwMinus k) * p.dt) p.w_min p.w_max

/-- One dense-mode tick of `STDP.new_iteration`: update both traces in
place, then
`dw_minus = -a_minus * dst.trace * src.spikes` and
`dw_plus = a_plus * src.trace * dst.spikes` — elementwise products of
the *updated* traces with the spike vectors, giving one-dimensional
arrays of length `n` — and finally
`W = np.clip(W + (dw_plus + dw_minus)*dt, w_min, w_max)`, where numpy
broadcasts the length-`n` `dw` vector across the first (destination)
axis of the `n × n` matrix `W`: entry `(i, j)` receives `dw j`. -/
def STDP.denseTick (p : STDPParams) {n : ℕ} (s : DenseState n) :
    DenseState n :=
  let x1 := STDP.srcTraceNext p s
  let y1 := STDP.dstTraceNext p s
  let dwMinus : Fin n → ℚ := fun j => -p.a_minus * y1 j * b2q (s.srcSpikes j)
  let dwPlus : Fin n → ℚ := fun j => p.a_plus * x1 j * b2q (s.dstSpikes j)
  { s with
    srcTrace := x1
    dstTrace := y1
    W := fun i j => STDP.applyW p (s.W i) dwPlus dwMinus j }

/-- The dense weight update as the specification words it (comparison
definition, written from the spec, not from the source): the same trace
update, but `dw` an *outer product* over destination × source indices,
`dw i j = a_plus * src.trace j * dst.spikes i
        - a_minus * dst.trace i * src.spikes j`. -/
def STDP.denseTickSpec (p : STDPParams) {n : ℕ} (s : DenseState n) :
    DenseState n :=
  let x1 := STDP.srcTraceNext p s
  let y1 := STDP.dstTraceNext p s
  let dw : Fin n → Fin n → ℚ := fun i j =>
    p.a_plus * x1 j * b2q (s.dstSpikes i)
      - p.a_minus * y1 i * b2q (s.srcSpikes j)
  { s with
    srcTrace := x1
    dstTrace := y1
    W := fun i j => npClip (s.W i j + dw i j * p.dt) p.w_min p.w_max }

/-! ## Plasticity engine: STDP, convolutional branch
(`STDP.conv2d_update` in `src/PymoNNtoBehaviors/learning/STDP.py`)

The convolutional branch manipulates numpy arrays whose ranks only
exist at run time, so this part is embedded with an untyped
shape-carrying array model, faithful to numpy's shape rules at the two
operations the branch performs before it can produce a `dw`: the
broadcasting assignment of the flat pre-synaptic vectors into the
padded 4-D field, and `np.lib.stride_tricks.sliding_window_view`. -/

/-- A rank-generic numpy array: a shape together with the values,
read at integer multi-indices. -/
structure NdArray where
  shape : List ℕ
  data : List ℕ → ℚ

/-- Embeds `np.zeros(shape)`. -/
def npZeros (shape : List ℕ) : NdArray := { shape := shape, data := fun _ => 0 }

/-- Whether a value of shape `src` broadcasts against a destination of
shape `dst` (right-aligned; each aligned source dimension must equal
the destination dimension or be 1). -/
def broadcastsTo (src dst : List ℕ) : Bool :=
  decide (src.length ≤ dst.length) &&
    (List.zip src.reverse dst.reverse).all (fun q => q.1 == q.2 || q.1 == 1)

/-- Reading a broadcast value: the trailing coordinates of `idx` are
mapped onto the value's axes, stretched axes (extent 1) read index 0. -/
def broadcastRead (value : NdArray) (idx : List ℕ) : ℚ :=
  let tail := idx.drop (idx.length - value.shape.length)
  value.data (List.zipWith (fun i d => if d == 1 then 0 else i) tail value.shape)

/-- The assignment `dst[:, p0 : h - p0, p1 : w - p1, :] = value` on a
4-D `dst`, as numpy executes it: the value must broadcast to the slice
shape `[b, h - 2*p0, w - 2*p1, c]`, else the assignment raises. -/
def assignCenter (dst : NdArray) (p0 p1 : ℕ) (value : NdArray) :
    Option NdArray :=
  match dst.shape with
  | [b, hh, ww, c] =>
    if broadcastsTo value.shape [b, hh - 2 * p0, ww - 2 * p1, c] then
      some { shape := dst.shape
           , data := fun idx =>
               match idx with
               | [i0, i1, i2, i3] =>
                 if p0 ≤ i1 ∧ i1 < hh - p0 ∧ p1 ≤ i2 ∧ i2 < ww - p1 then
                   broadcastRead value [i0, i1 - p0, i2 - p1, i3]
                 else dst.data idx
               | _ => dst.data idx }
    else none
  | _ => none

/-- Embeds `np.lib.stride_tricks.sliding_window_view(x, window_shape)` with no
`axis` argument: numpy requires `window_shape` to name a window extent
for every axis of `x`, i.e. `window_shape.length = x.ndim`, and raises
otherwise.  On success the result has the per-axis window counts
followed by the window extents, and reads `x` at the elementwise sum of
outer position and in-window offset. -/
def slidingWindowView (x : NdArray) (window : List ℕ) : Option NdArray :=
  if window.length = x.shape.length then
    some { shape := (List.zipWith (fun s w => s - w + 1) x.shape window) ++ window
         , data := fun idx =>
             x.data (List.zipWith (· + ·)
               (idx.take window.length) (idx.drop window.length)) }
  else none

/-- Configuration and inputs of one convolutional-mode plasticity tick,
as `conv2d_update` reads them from the synapse object (the flat source
vectors are the float views numpy takes of `spikes`/`trace`). -/
structure ConvSTDPState where
  srcSize : ℕ
  pad : ℕ × ℕ
  kernel : ℕ × ℕ
  nFilters : ℕ
  srcSpikes : List ℕ → ℚ
  srcTrace : List ℕ → ℚ

/-- Embeds `STDP.conv2d_update` up to the production of the windowed views:
compute the padded field extents from `sqrt(src.size)` and the padding,
place the flat pre-synaptic spike and trace vectors into the centre of
the zero 4-D fields, and take `sliding_window_view` of both with
`window_shape = kernel_size`.  Every later line of `conv2d_update`
consumes these two views, so the branch produces a `dw` only if this
succeeds.  Returns the pair of views. -/
def STDP.convWindows (s : ConvSTDPState) : Option (NdArray × NdArray) :=
  match assignCenter (npZeros [1, Nat.sqrt s.srcSize + 2 * s.pad.1,
            Nat.sqrt s.srcSize + 2 * s.pad.2,
            s.srcSize / ((Nat.sqrt s.srcSize + 2 * s.pad.1)
              * (Nat.sqrt s.srcSize + 2 * s.pad.2))])
          s.pad.1 s.pad.2 { shape := [s.srcSize], data := s.srcSpikes },
        assignCenter (npZeros [1, Nat.sqrt s.srcSize + 2 * s.pad.1,
            Nat.sqrt s.srcSize + 2 * s.pad.2,
            s.srcSize / ((Nat.sqrt s.srcSize + 2 * s.pad.1)
              * (Nat.sqrt s.srcSize + 2 * s.pad.2))])
          s.pad.1 s.pad.2 { shape := [s.srcSize], data := s.srcTrace } with
  | some preSpikes, some preTrace =>
    match slidingWindowView preSpikes [s.kernel.1, s.kernel.2],
          slidingWindowView preTrace [s.kernel.1, s.kernel.2] with
    | some wSpikes, some wTrace => some (wSpikes, wTrace)
    | _, _ => none
  | _, _ => none

/-! ## Convolutional projection: forward pass
(`src/PymoNNtoBehaviors/connections/convolution.py`)

The static `__conv2d` builds a zero-padded copy of the input, views it
through `as_strided` windows of the kernel's spatial extent (stride 1),
and contracts each window against the kernel tensor over its three
trailing axes with `np.tensordot(..., axes=3)`.  The batch axis is
always the singleton `expand_dims` adds, so it is dropped here.  The
padded image is embedded as a total function on ℕ × ℕ that is the
source inside the centre window and 0 elsewhere, exactly the array
`np.zeros` + centre assignment builds (for parameters for which the
strided view stays inside the array). -/

/-- The zero-padded image: entry `(y, x, c)` is
`src (y - p0) (x - p1) c` when `(y, x)` lies in the centre window and 0
on the zero-initialised border. -/
def padImg {H W C : ℕ} (p0 p1 : ℕ) (src : Fin H → Fin W → Fin C → ℚ) :
    ℕ → ℕ → Fin C → ℚ :=
  fun y x c =>
    if h : p0 ≤ y ∧ y < p0 + H ∧ p1 ≤ x ∧ x < p1 + W then
      src ⟨y - p0, by omega⟩ ⟨x - p1, by omega⟩ c
    else 0

/-- Embeds `Conv2D.__conv2d`: output extents
`h_out = H - kernel_h + 2*p0 + 1`, `w_out = W - kernel_w + 2*p1 + 1`;
the entry at `(y, x, f)` is the window of the padded image anchored at
`(y, x)` contracted against filter `f` of the kernel over the two
spatial axes and the channel axis. -/
def conv2d {H W C kh kw F : ℕ} (src : Fin H → Fin W → Fin C → ℚ)
    (kernels : Fin kh → Fin kw → Fin C → Fin F → ℚ) (p0 p1 : ℕ) :
    Fin (H - kh + 2 * p0 + 1) → Fin (W - kw + 2 * p1 + 1) → Fin F → ℚ :=
  fun y x f =>
    ∑ i : Fin kh, ∑ j : Fin kw, ∑ c : Fin C,
      padImg p0 p1 src (y.val + i.val) (x.val + j.val) c * kernels i j c f

/-- Row-major flattening of the `(h_out, w_out, n_filters)` output, as
`.flatten()` produces it, extended by 0 beyond the array's extent so
that the flat current vector can be typed over ℕ. -/
def flattenConv {hOut wOut F : ℕ} (out : Fin hOut → Fin wOut → Fin F → ℚ) :
    ℕ → ℚ :=
  fun k =>
    if h : k < hOut * (wOut * F) then
      have hF : 0 < F := by
        rcases Nat.eq_zero_or_pos F with h0 | h0
        · subst h0; simp at h
        · exact h0
      have hWF : 0 < wOut * F := by
        rcases Nat.eq_zero_or_pos (wOut * F) with h0 | h0
        · rw [h0, Nat.mul_zero] at h; exact absurd h (Nat.not_lt_zero k)
        · exact h0
      out ⟨k / (wOut * F),
            Nat.div_lt_of_lt_mul (by rw [Nat.mul_comm]; exact h)⟩
        ⟨k % (wOut * F) / F,
            Nat.div_lt_of_lt_mul (by rw [Nat.mul_comm F wOut]; exact Nat.mod_lt _ hWF)⟩
        ⟨k % F, Nat.mod_lt _ hF⟩
    else 0

/-- State of a convolutional projection as `Conv2D.new_iteration` reads
and writes it.  `L = int(sqrt(src.size))` is the square spatial extent
of the source; the forward pass only executes when the flat source
reshapes to `(L, L)`, i.e. one input channel (`is1d`), which is the
typed case here.  The flat arrays (`srcS`, `dstI`) are functions on ℕ. -/
structure Conv2DState (L kh kw F : ℕ) where
  pad : ℕ × ℕ
  W : Fin kh → Fin kw → Fin 1 → Fin F → ℚ
  srcS : ℕ → ℚ
  dstI : ℕ → ℚ

/-- The reshape `src.s.reshape(L, L)` followed by the two
`expand_dims`, read as an `(L, L, 1)` tensor. -/
def Conv2D.inputTensor {L kh kw F : ℕ} (s : Conv2DState L kh kw F) :
    Fin L → Fin L → Fin 1 → ℚ :=
  fun y x _ => s.srcS (y.val * L + x.val)

/-- The flattened current contribution
`Conv2D.__conv2d(inp, W, pad).flatten()` of one forward pass. -/
def Conv2D.contribution {L kh kw F : ℕ} (s : Conv2DState L kh kw F) :
    ℕ → ℚ :=
  flattenConv (conv2d (Conv2D.inputTensor s) s.W s.pad.1 s.pad.2)

/-- Embeds `Conv2D.new_iteration`: the single statement
`synapses.dst.I += __conv2d(...).flatten()`; nothing else on the
projection or the populations is written. -/
def Conv2D.newIteration {L kh kw F : ℕ} (s : Conv2DState L kh kw F) :
    Conv2DState L kh kw F :=
  { s with dstI := fun k => s.dstI k + Conv2D.contribution s k }

/-! ## The spec's concrete scenario (spec §8) -/

/-- Parameters of the periodic-firing scenario for the tagged-variant
base LIF: `v_rest=-65, v_reset=-65, threshold=-55, R=1, tau=10`. -/
def scenarioLIF : LIFParams :=
  { tau := 10, v_rest := -65, v_reset := -65, threshold := -55, R := 1 }

/-- The scenario's constant input current `I = 80` on one neuron. -/
def scenarioI : Fin 1 → ℚ := fun _ => 80

/-- State of the single scenario neuron after `k` ticks of the
tagged-variant `LIF.new_iteration`, starting from `LIF._initialize`
(so `v = v_rest`). -/
def scenarioTick (k : ℕ) : LIFState 1 :=
  (fun s => LIF.newIteration scenarioLIF scenarioI s)^[k]
    (LIF.initVars scenarioLIF 1)

/-- The same scenario parameters for the duplicate single-file LIF,
with its `dt = 1`. -/
def scenarioOld : OldLIFParams :=
  { tau := 10, v_rest := -65, v_reset := -65, threshold := -55, R := 1, dt := 1 }

/-- State of the single scenario neuron after `k` ticks of the
duplicate `LIF.new_iteration`, started at `v = v_rest` as the scenario
prescribes. -/
def scenarioOldTick (k : ℕ) : LIFState 1 :=
  (fun s => OldLIF.newIteration scenarioOld scenarioI s)^[k]
    { v := fun _ => scenarioOld.v_rest, spikes := fun _ => false }

/-- One unfolding of the scenario iteration for the duplicate LIF. -/
theorem scenarioOldTick_succ (k : ℕ) :
    scenarioOldTick (k + 1)
      = OldLIF.newIteration scenarioOld scenarioI (scenarioOldTick k) :=
  Function.iterate_succ_apply' _ _ _

/-- The duplicate LIF tick reads its input state only through `v`: two
states with the same voltage vector step to the same voltage and spike
vectors. -/
theorem OldLIF.stepDependsOnV (p : OldLIFParams) {n : ℕ} (I : Fin n → ℚ)
    (s s' : LIFState n) (hv : s.v = s'.v) :
    (OldLIF.newIteration p I s).v = (OldLIF.newIteration p I s').v
    ∧ (OldLIF.newIteration p I s).spikes = (OldLIF.newIteration p I s').spikes := by
  simp [OldLIF.newIteration, OldLIF.integrate, hv]

/-- The scenario voltage of the duplicate LIF is 2-periodic from the
start. -/
theorem scenarioOldTick_v_period (t : ℕ) :
    (scenarioOldTick (t + 2)).v = (scenarioOldTick t).v := by
  induction t with
  | zero =>
    funext i
    fin_cases i
    norm_num [scenarioOldTick, Function.iterate_succ_apply,
      Function.iterate_zero_apply, OldLIF.newIteration, OldLIF.integrate,
      scenarioOld, scenarioI]
  | succ t ih =>
    rw [show t + 1 + 2 = (t + 2) + 1 by omega, scenarioOldTick_succ (t + 2),
      scenarioOldTick_succ t]
    exact (OldLIF.stepDependsOnV scenarioOld scenarioI _ _ ih).1

/-- C1 (counterexample): in the tagged-variant implementation
(`src/PymoNNtoBehaviors/neurons/LIFs.py`), detection and reset run at
the start of the tick and integration afterwards, so spiking does not
pin the end-of-tick voltage to `v_reset`.  Concretely, in the spec's
own periodic-firing scenario the neuron ends tick 3 with
`spikes = true` but `v = -57 ≠ -65 = v_reset`. -/
theorem C1_counterexample :
    (scenarioTick 3).spikes 0 = true
    ∧ (scenarioTick 3).v 0 = -57
    ∧ scenarioLIF.v_reset = -65
    ∧ (scenarioTick 3).v 0 ≠ scenarioLIF.v_reset := by
  refine ⟨?_, ?_, rfl, ?_⟩ <;>
    norm_num [scenarioTick, Function.iterate_succ_apply,
      Function.iterate_zero_apply, LIF.newIteration, LIF.fire, LIF.initVars,
      LIF.dvdt, scenarioLIF, scenarioI, getNeuronVecOnes]

/-- C1 (amended): the reset invariant holds as stated for the duplicate
single-file implementation (`src/neurons/LIF.py`), whose tick
integrates, then detects, then resets; for the tagged-variant
implementation (`src/PymoNNtoBehaviors/neurons/LIFs.py`) a neuron that
spikes ends the tick one integration step past the reset value:
`v = v_reset + dv(v_reset)/tau`. -/
theorem C1_reset_invariant :
    (∀ (p : OldLIFParams) (n : ℕ) (I : Fin n → ℚ) (s : LIFState n) (i : Fin n),
        (OldLIF.newIteration p I s).spikes i = true →
        (OldLIF.newIteration p I s).v i = p.v_reset)
    ∧
    (∀ (p : LIFParams) (n : ℕ) (I : Fin n → ℚ) (s : LIFState n) (i : Fin n),
        (LIF.newIteration p I s).spikes i = true →
        (LIF.newIteration p I s).v i
          = p.v_reset + LIF.dvdt p (I i) p.v_reset / p.tau) := by
  constructor
  · intro p n I s i h
    simp only [OldLIF.newIteration, decide_eq_true_eq] at h ⊢
    rw [if_pos h]
  · intro p n I s i h
    simp only [LIF.newIteration, LIF.fire, decide_eq_true_eq] at h ⊢
    rw [if_pos h]

/-- Witness for C1's amended theorem: both conclusions instantiated on
the scenario, at the ticks where the respective implementation spikes. -/
theorem C1_witness :
    (OldLIF.newIteration scenarioOld scenarioI (scenarioOldTick 1)).v 0
      = scenarioOld.v_reset
    ∧ (LIF.newIteration scenarioLIF scenarioI (scenarioTick 2)).v 0
      = scenarioLIF.v_reset
        + LIF.dvdt scenarioLIF (scenarioI 0) scenarioLIF.v_reset / scenarioLIF.tau :=
  ⟨C1_reset_invariant.1 scenarioOld 1 scenarioI (scenarioOldTick 1) 0
    (by norm_num [scenarioOldTick, Function.iterate_succ_apply,
      Function.iterate_zero_apply, OldLIF.newIteration, OldLIF.integrate,
      scenarioOld, scenarioI]),
   C1_reset_invariant.2 scenarioLIF 1 scenarioI (scenarioTick 2) 0
    (by norm_num [scenarioTick, Function.iterate_succ_apply,
      Function.iterate_zero_apply, LIF.newIteration, LIF.fire, LIF.initVars,
      LIF.dvdt, scenarioLIF, scenarioI, getNeuronVecOnes])⟩

/-- C3: the spec's periodic-firing scenario, on the implementation with
the spec's stated integrate-then-detect-then-reset tick order
(`src/neurons/LIF.py`): tick 1 ends at `v = -57` without a spike;
tick 2 ends at `v = -65` with a spike, detected at the pre-reset
integrated value `-49.8 = -249/5`; ticks 3 and 4 repeat this; and the
end-of-tick observables are 2-periodic from tick 1 on. -/
theorem C3_periodic_firing :
    ((scenarioOldTick 1).v 0 = -57 ∧ (scenarioOldTick 1).spikes 0 = false)
    ∧ ((scenarioOldTick 2).v 0 = -65 ∧ (scenarioOldTick 2).spikes 0 = true
        ∧ OldLIF.integrate scenarioOld scenarioI (scenarioOldTick 1) 0 = -249 / 5)
    ∧ ((scenarioOldTick 3).v 0 = -57 ∧ (scenarioOldTick 3).spikes 0 = false)
    ∧ ((scenarioOldTick 4).v 0 = -65 ∧ (scenarioOldTick 4).spikes 0 = true)
    ∧ (∀ t : ℕ, 1 ≤ t →
        (scenarioOldTick (t + 2)).v 0 = (scenarioOldTick t).v 0
        ∧ (scenarioOldTick (t + 2)).spikes 0 = (scenarioOldTick t).spikes 0) := by
  refine ⟨?_, ?_, ?_, ?_, ?_⟩
  case _ | _ | _ | _ =>
    norm_num [scenarioOldTick, Function.iterate_succ_apply,
      Function.iterate_zero_apply, OldLIF.newIteration, OldLIF.integrate,
      scenarioOld, scenarioI]
  intro t ht
  obtain ⟨u, rfl⟩ : ∃ u, t = u + 1 := ⟨t - 1, by omega⟩
  constructor
  · exact congrFun (scenarioOldTick_v_period (u + 1)) 0
  · rw [show u + 1 + 2 = (u + 2) + 1 by omega, scenarioOldTick_succ (u + 2),
      scenarioOldTick_succ u]
    exact congrFun
      (OldLIF.stepDependsOnV scenarioOld scenarioI _ _ (scenarioOldTick_v_period u)).2 0

/-- Witness for C3: the periodicity conjunct instantiated at `t = 1`. -/
theorem C3_witness :
    (1 : ℕ) ≤ 1
    ∧ (scenarioOldTick 3).v 0 = (scenarioOldTick 1).v 0
    ∧ (scenarioOldTick 3).spikes 0 = (scenarioOldTick 1).spikes 0 :=
  ⟨le_refl 1,
   (C3_periodic_firing.2.2.2.2 1 (le_refl 1)).1,
   (C3_periodic_firing.2.2.2.2 1 (le_refl 1)).2⟩

/-- C10: in the tagged-variant implementation every variant runs
`_fire` before integrating, so the spike vector observable at the end
of a tick is the threshold test on the voltage as it stood at the
start of that tick; consequently a neuron whose integration step
pushes `v` to or above threshold still ends the tick with
`spikes = false` and a super-threshold voltage. -/
theorem C10_detect_before_integrate :
    (∀ (p : LIFParams) (n : ℕ) (I : Fin n → ℚ) (s : LIFState n) (i : Fin n),
        (LIF.newIteration p I s).spikes i = decide (s.v i ≥ p.threshold))
    ∧ (∀ (ex : ℚ → ℚ) (p : ELIFParams) (n : ℕ) (I : Fin n → ℚ)
          (s : LIFState n) (i : Fin n),
        (ELIF.newIteration ex p I s).spikes i = decide (s.v i ≥ p.threshold))
    ∧ (∀ (ex : ℚ → ℚ) (p : AELIFParams) (n : ℕ) (I : Fin n → ℚ)
          (s : AELIFState n) (i : Fin n),
        (AELIF.newIteration ex p I s).spikes i = decide (s.v i ≥ p.threshold))
    ∧ (∀ (p : LIFParams) (n : ℕ) (I : Fin n → ℚ) (s : LIFState n) (i : Fin n),
        s.v i < p.threshold →
        (LIF.newIteration p I s).v i ≥ p.threshold →
        (LIF.newIteration p I s).spikes i = false
        ∧ (LIF.newIteration p I s).v i ≥ p.threshold) := by
  refine ⟨fun p n I s i => rfl, fun ex p n I s i => rfl, fun ex p n I s i => rfl,
    fun p n I s i hlt hge => ⟨?_, hge⟩⟩
  simp only [LIF.newIteration, LIF.fire, decide_eq_false_iff_not, ge_iff_le, not_le]
  exact hlt

/-- Witness for C10: the scenario neuron one tick before its spike is
below threshold, integration carries it above threshold, and the tick
still ends unspiked. -/
theorem C10_witness :
    (scenarioTick 1).v 0 < scenarioLIF.threshold
    ∧ ((LIF.newIteration scenarioLIF scenarioI (scenarioTick 1)).spikes 0 = false
        ∧ (LIF.newIteration scenarioLIF scenarioI (scenarioTick 1)).v 0
            ≥ scenarioLIF.threshold) := by
  have hlt : (scenarioTick 1).v 0 < scenarioLIF.threshold := by
    norm_num [scenarioTick, Function.iterate_succ_apply,
      Function.iterate_zero_apply, LIF.newIteration, LIF.fire, LIF.initVars,
      LIF.dvdt, scenarioLIF, scenarioI, getNeuronVecOnes]
  have hge : (LIF.newIteration scenarioLIF scenarioI (scenarioTick 1)).v 0
      ≥ scenarioLIF.threshold := by
    norm_num [scenarioTick, Function.iterate_succ_apply,
      Function.iterate_zero_apply, LIF.newIteration, LIF.fire, LIF.initVars,
      LIF.dvdt, scenarioLIF, scenarioI, getNeuronVecOnes]
  exact ⟨hlt, C10_detect_before_integrate.2.2.2 scenarioLIF 1 scenarioI
    (scenarioTick 1) 0 hlt hge⟩

/-- C7: one AELIF tick subtracts `R*A` (with the pre-tick `A`) from the
voltage derivative before integrating the possibly-reset voltage, and
afterwards assigns
`A = (alpha*(v - v_rest) + beta*tau_a*spikes - A) / tau_a`, where `v`
is the just-integrated voltage, `spikes` is the indicator detected in
this tick's `_fire` step, and the `A` on the right is the pre-tick
value. -/
theorem C7_adaptation_update :
    ∀ (ex : ℚ → ℚ) (p : AELIFParams) (n : ℕ) (I : Fin n → ℚ)
      (s : AELIFState n) (i : Fin n),
      (AELIF.newIteration ex p I s).spikes i = decide (s.v i ≥ p.threshold)
      ∧ (AELIF.newIteration ex p I s).v i
          = (if s.v i ≥ p.threshold then p.v_reset else s.v i)
            + (ELIF.dvdt ex p.toELIFParams (I i)
                 (if s.v i ≥ p.threshold then p.v_reset else s.v i)
               - p.R * s.A i) / p.tau
      ∧ (AELIF.newIteration ex p I s).A i
          = (p.alpha * ((AELIF.newIteration ex p I s).v i - p.v_rest)
             + p.beta * p.tau_a * b2q ((AELIF.newIteration ex p I s).spikes i)
             - s.A i) / p.tau_a := by
  intro ex p n I s i
  refine ⟨rfl, ?_, ?_⟩
  · by_cases h : s.v i ≥ p.threshold <;> simp [AELIF.newIteration, h]
  · simp [AELIF.newIteration, AELIF.dAdt]

/-- Clipping into a nonempty interval lands inside it. -/
theorem npClip_mem (x lo hi : ℚ) (h : lo ≤ hi) :
    lo ≤ npClip x lo hi ∧ npClip x lo hi ≤ hi :=
  ⟨le_min (le_max_right x lo) h, min_le_right _ _⟩

/-- C2: whenever `w_min ≤ w_max`, every weight lies inside
`[w_min, w_max]` after a plasticity tick, whatever the spike and trace
magnitudes: the dense tick ends in the shared `np.clip` line, and the
same final line (`STDP.applyW`) bounds the convolutional branch for
arbitrary produced `dw` arrays over any index set. -/
theorem C2_weight_bounds (p : STDPParams) (hw : p.w_min ≤ p.w_max) :
    (∀ (n : ℕ) (s : DenseState n) (i j : Fin n),
        p.w_min ≤ (STDP.denseTick p s).W i j
        ∧ (STDP.denseTick p s).W i j ≤ p.w_max)
    ∧ (∀ (idx : Type) (W dwPlus dwMinus : idx → ℚ) (k : idx),
        p.w_min ≤ STDP.applyW p W dwPlus dwMinus k
        ∧ STDP.applyW p W dwPlus dwMinus k ≤ p.w_max) :=
  ⟨fun n s i j => npClip_mem _ _ _ hw,
   fun idx W dwPlus dwMinus k => npClip_mem _ _ _ hw⟩

/-- A concrete plastic projection for the C2 witness. -/
def stdpEx : STDPParams :=
  { tau_plus := 2, tau_minus := 2, a_plus := 1, a_minus := 1
  , dt := 1, w_min := 0, w_max := 1 }

/-- A concrete dense state for the C2 witness. -/
def denseEx : DenseState 1 :=
  { srcTrace := fun _ => 5, dstTrace := fun _ => -3
  , srcSpikes := fun _ => true, dstSpikes := fun _ => true
  , W := fun _ _ => 2 }

/-- Witness for C2: the bound evaluated on a concrete projection whose
pre-update weight lies outside the interval. -/
theorem C2_witness :
    stdpEx.w_min ≤ stdpEx.w_max
    ∧ (stdpEx.w_min ≤ (STDP.denseTick stdpEx denseEx).W 0 0
        ∧ (STDP.denseTick stdpEx denseEx).W 0 0 ≤ stdpEx.w_max) :=
  ⟨by norm_num [stdpEx],
   (C2_weight_bounds stdpEx (by norm_num [stdpEx])).1 1 denseEx 0 0⟩

/-- Parameters for the C4 counterexample: only the pre-post term
active. -/
def stdpC4 : STDPParams :=
  { tau_plus := 1, tau_minus := 1, a_plus := 1, a_minus := 0
  , dt := 1, w_min := -10, w_max := 10 }

/-- Dense state for the C4 counterexample: the source spikes at index 0
and the destination at index 1, with zero weights and traces. -/
def denseC4 : DenseState 2 :=
  { srcTrace := fun _ => 0, dstTrace := fun _ => 0
  , srcSpikes := fun i => i.val == 0
  , dstSpikes := fun i => i.val == 1
  , W := fun _ _ => 0 }

/-- C4 (counterexample): the dense update is not the claimed outer
product.  With a source spike at index 0 and a destination spike at
index 1, the outer product `dw` has a 1 at entry `(1, 0)` and the
claimed update would set `W[1,0] = 1`, but the code's elementwise
product `a_plus * src.trace * dst.spikes - a_minus * dst.trace *
src.spikes` is the all-zero vector, so `W[1,0]` stays 0. -/
theorem C4_counterexample :
    (STDP.denseTick stdpC4 denseC4).W 1 0 = 0
    ∧ (STDP.denseTickSpec stdpC4 denseC4).W 1 0 = 1
    ∧ (STDP.denseTick stdpC4 denseC4).W 1 0
        ≠ (STDP.denseTickSpec stdpC4 denseC4).W 1 0 := by
  norm_num [STDP.denseTick, STDP.denseTickSpec, STDP.applyW,
    STDP.srcTraceNext, STDP.dstTraceNext, npClip, b2q, stdpC4, denseC4]

/-- C4 (amended): one dense STDP tick first updates both traces by
`trace += (-trace/tau + spikes) * dt` (`tau_plus` for the source,
`tau_minus` for the destination) and then updates the weights by
`W = clip(W + dw*dt, w_min, w_max)`, where `dw` is the *elementwise
vector* `a_plus * src.trace * dst.spikes - a_minus * dst.trace *
src.spikes` over the updated traces (defined only when the two
populations have equal size), broadcast across `W`'s destination axis:
entry `(i, j)` receives `dw j`. -/
theorem C4_dense_update :
    ∀ (p : STDPParams) (n : ℕ) (s : DenseState n) (i j : Fin n),
      (STDP.denseTick p s).srcTrace j
        = s.srcTrace j + (-(s.srcTrace j) / p.tau_plus + b2q (s.srcSpikes j)) * p.dt
      ∧ (STDP.denseTick p s).dstTrace j
        = s.dstTrace j + (-(s.dstTrace j) / p.tau_minus + b2q (s.dstSpikes j)) * p.dt
      ∧ (STDP.denseTick p s).W i j
        = npClip (s.W i j
            + (p.a_plus * (STDP.denseTick p s).srcTrace j * b2q (s.dstSpikes j)
               + -p.a_minus * (STDP.denseTick p s).dstTrace j * b2q (s.srcSpikes j))
              * p.dt)
            p.w_min p.w_max :=
  fun p n s i j => ⟨rfl, rfl, rfl⟩

/-- A successful centre assignment preserves the target's shape. -/
theorem assignCenter_shape {dst : NdArray} {p0 p1 : ℕ} {value r : NdArray}
    (h : assignCenter dst p0 p1 value = some r) : r.shape = dst.shape := by
  unfold assignCenter at h
  split at h
  · split at h
    · rw [← Option.some.inj h]
    · exact absurd h (by simp)
  · exact absurd h (by simp)

/-- C5: the convolutional plasticity branch never produces a `dw` at
all, let alone one reduced over the spatial axis: `conv2d_update`
passes the 2-element `kernel_size` as the `window_shape` of
`sliding_window_view` over the 4-D padded field, which numpy rejects
for every configuration, so the branch fails before any weight change
(the attempted shapes also never undergo a reduction to the kernel
shape anywhere in `conv2d_update` or `new_iteration`). -/
theorem C5_conv_update_fails : ∀ s : ConvSTDPState, STDP.convWindows s = none := by
  intro s
  unfold STDP.convWindows
  split
  · next preSpikes preTrace h1 h2 =>
    have h4 : preSpikes.shape.length = 4 := by
      rw [assignCenter_shape h1]; rfl
    have hsw : slidingWindowView preSpikes [s.kernel.1, s.kernel.2] = none := by
      unfold slidingWindowView
      rw [if_neg (by simp [h4])]
    simp [hsw]
  · rfl

/-- Scenario parameters for the C6 evaluation of the duplicate LIF's
initialisation (the test suite's standard configuration). -/
def c6Old : OldLIFParams :=
  { tau := 10, v_rest := -65, v_reset := -65, threshold := -55, R := 1, dt := 1 }

/-- C6: after initialisation and before any tick, the tagged-variant
implementations leave `v = v_rest`, `spikes` all-false and (for AELIF)
`A = 0`, and STDP leaves both traces zero; but the duplicate
single-file LIF initialises `v = get_neuron_vec() * v_rest = 0`, which
differs from `v_rest` for the standard configuration, and its
`spikes = get_neuron_vec() > threshold` is all-*true* for any negative
threshold. -/
theorem C6_initial_state :
    (∀ (p : LIFParams) (n : ℕ) (i : Fin n),
        (LIF.initVars p n).v i = p.v_rest
        ∧ (LIF.initVars p n).spikes i = false)
    ∧ (∀ (p : AELIFParams) (n : ℕ) (i : Fin n),
        (AELIF.initVars p n).v i = p.v_rest
        ∧ (AELIF.initVars p n).spikes i = false
        ∧ (AELIF.initVars p n).A i = 0)
    ∧ (∀ (n : ℕ) (i : Fin n), STDP.initTrace n i = 0)
    ∧ ((OldLIF.initVars c6Old 1).v 0 = 0
        ∧ (OldLIF.initVars c6Old 1).v 0 ≠ c6Old.v_rest
        ∧ (OldLIF.initVars c6Old 1).spikes 0 = true) := by
  refine ⟨?_, ?_, ?_, ?_⟩
  · intro p n i
    exact ⟨by simp [LIF.initVars, getNeuronVecOnes], rfl⟩
  · intro p n i
    exact ⟨by simp [AELIF.initVars, getNeuronVecOnes], rfl, rfl⟩
  · intro n i
    rfl
  · norm_num [OldLIF.initVars, getNeuronVec, c6Old]

/-- C9: the convolutional forward pass writes nothing but the
destination current: the kernel, the source spikes and the projection
configuration are untouched, and `dst.I` receives exactly the old
current plus the flattened convolution output. -/
theorem C9_forward_frame :
    ∀ (L kh kw F : ℕ) (s : Conv2DState L kh kw F),
      (Conv2D.newIteration s).W = s.W
      ∧ (Conv2D.newIteration s).srcS = s.srcS
      ∧ (Conv2D.newIteration s).pad = s.pad
      ∧ (Conv2D.newIteration s).dstI
          = fun k => s.dstI k + Conv2D.contribution s k :=
  fun L kh kw F s => ⟨rfl, rfl, rfl, rfl⟩

/-- C8: with a 1×1 kernel, one input channel, one filter and no
padding, the convolutional forward pass degenerates to pointwise
scaling: every output entry is the kernel's single value `k` times the
input entry at the same position. -/
theorem C8_pointwise_conv (H Wd : ℕ) (hH : 1 ≤ H) (hW : 1 ≤ Wd)
    (src : Fin H → Fin Wd → Fin 1 → ℚ) (k : ℚ)
    (y : Fin (H - 1 + 2 * 0 + 1)) (x : Fin (Wd - 1 + 2 * 0 + 1)) (f : Fin 1) :
    conv2d src (fun _ _ _ _ => k) 0 0 y x f
      = k * src ⟨y.val, by have := y.isLt; omega⟩
            ⟨x.val, by have := x.isLt; omega⟩ ⟨0, Nat.one_pos⟩ := by
  have hy := y.isLt
  have hx := x.isLt
  simp only [conv2d, Fin.sum_univ_one, Fin.val_zero, Nat.add_zero]
  rw [padImg, dif_pos
    (by omega : 0 ≤ y.val ∧ y.val < 0 + H ∧ 0 ≤ x.val ∧ x.val < 0 + Wd)]
  rw [mul_comm]
  rfl

/-- A concrete 2×2 single-channel activity field for the C8 witness. -/
def c8src : Fin 2 → Fin 2 → Fin 1 → ℚ :=
  fun y x _ => (y.val : ℚ) * 10 + (x.val : ℚ) + 1

/-- Witness for C8: the pointwise-scaling law evaluated on the
concrete 2×2 field with kernel value 3, at output position (1, 0). -/
theorem C8_witness :
    (1 : ℕ) ≤ 2
    ∧ conv2d c8src (fun _ _ _ _ => (3 : ℚ)) 0 0
        (⟨1, by norm_num⟩ : Fin (2 - 1 + 2 * 0 + 1))
        (⟨0, by norm_num⟩ : Fin (2 - 1 + 2 * 0 + 1))
        (⟨0, by norm_num⟩ : Fin 1)
      = 3 * c8src (⟨1, by norm_num⟩ : Fin 2) (⟨0, by norm_num⟩ : Fin 2)
          (⟨0, by norm_num⟩ : Fin 1)
    ∧ 3 * c8src (⟨1, by norm_num⟩ : Fin 2) (⟨0, by norm_num⟩ : Fin 2)
        (⟨0, by norm_num⟩ : Fin 1) = 33 :=
  ⟨by norm_num,
   C8_pointwise_conv 2 2 (by norm_num) (by norm_num) c8src 3
     ⟨1, by norm_num⟩ ⟨0, by norm_num⟩ ⟨0, by norm_num⟩,
   by norm_num [c8src]⟩
